import Mathlib

/-!
Shallow embedding of the serialization and routing layer of the Rest-Shop
repository (`restshop_project/restshop/serializers.py` and
`restshop_project/restshop/urls.py`), together with theorems settling the
specification's claims about it.

Querysets are embedded as Lean lists in database (primary-key) order.
Prices, quantities and stock counts are embedded as integers.
-/

namespace RestShop

/-- Modelled from the spec: `models.py` is not part of the given sources.
A `UnitImage` carries an image file (here: its URL) and an `is_main` flag. -/
structure UnitImage where
  url : String
  is_main : Bool
deriving DecidableEq, Repr

/-- Modelled from the spec: a `PropertyValue` is a named attribute-value pair
attached to a `Unit`; `property_name` is the name of its parent `Property`. -/
structure PropertyValue where
  property_name : String
  value : String
deriving DecidableEq, Repr

/-- Modelled from the spec: a `Unit` is a purchasable variant of a `Product`
(unique sku, price, stock count), with related property values and images.
`product_id` and `product_title` embed the reverse side of its foreign key. -/
structure Unit where
  sku : String
  price : Int
  num_in_stock : Int
  value_set : List PropertyValue
  unitimage_set : List UnitImage
  product_id : Nat
  product_title : String
deriving DecidableEq, Repr

/-- Modelled from the spec: a `Product` has a title, a description, tags and
child units; `tag_set` holds the tag names. -/
structure Product where
  id : Nat
  title : String
  description : String
  tag_set : List String
  unit_set : List Unit
deriving DecidableEq, Repr

/-! ## UnitSerializer (serializers.py lines 34-54) -/

/-- One `{name, value}` entry of the `properties` field. -/
structure PropRepr where
  name : String
  value : String
deriving DecidableEq, Repr

/-- The representation produced by `UnitSerializer`
(`fields = ('sku', 'price', 'properties', 'images', 'num_in_stock')`).
`images` is an `Option` because a Python serializer method may return `None`;
`get_images` never does. -/
structure UnitRepr where
  sku : String
  price : Int
  properties : List PropRepr
  images : Option (List String)
  num_in_stock : Int
deriving DecidableEq, Repr

/-- Embeds `UnitSerializer.get_properties`: project each related `PropertyValue` to
`{name: property.name, value: value}`. -/
def UnitSerializer.get_properties (obj : Unit) : List PropRepr :=
  obj.value_set.map (fun property_value =>
    { name := property_value.property_name, value := property_value.value })

/-- Embeds `UnitSerializer.get_images`: if the unit's image queryset is nonempty,
the list of the images' URLs, else the empty list. Both branches return a
list (`some`), never `None`. -/
def UnitSerializer.get_images (obj : Unit) : Option (List String) :=
  let images := obj.unitimage_set
  if images.isEmpty then some [] else some (images.map (fun image => image.url))

/-- The full `UnitSerializer` output for one unit. -/
def UnitSerializer.toRepresentation (obj : Unit) : UnitRepr :=
  { sku := obj.sku
    price := obj.price
    properties := UnitSerializer.get_properties obj
    images := UnitSerializer.get_images obj
    num_in_stock := obj.num_in_stock }

end RestShop

namespace RestShop

/-! ## ProductListSerializer and ProductSerializer (serializers.py lines 57-104) -/

/-- The `{min, max}` aggregate of `get_prices`; SQL `MIN`/`MAX` return
`NULL` on an empty set, hence the options. -/
structure Prices where
  min : Option Int
  max : Option Int
deriving DecidableEq, Repr

/-- SQL `MIN` over a column: `NULL` on no rows, else the least value. -/
def sqlMin : List Int → Option Int
  | [] => none
  | x :: xs => some (xs.foldl Min.min x)

/-- SQL `MAX` over a column: `NULL` on no rows, else the greatest value. -/
def sqlMax : List Int → Option Int
  | [] => none
  | x :: xs => some (xs.foldl Max.max x)

/-- Embeds `ProductListSerializer.get_prices`: aggregate `Min`/`Max` over the
product's units' `price` column. -/
def ProductListSerializer.get_prices (obj : Product) : Prices :=
  { min := sqlMin (obj.unit_set.map (fun u => u.price))
    max := sqlMax (obj.unit_set.map (fun u => u.price)) }

/-- Embeds `order_by('-is_main')`: a stable sort of the image queryset by the
boolean `is_main` descending (flagged images first, ties in table order). -/
def order_by_is_main_desc (images : List UnitImage) : List UnitImage :=
  images.filter (fun i => i.is_main) ++ images.filter (fun i => !i.is_main)

/-- Embeds `ProductListSerializer.get_image`: take the first unit having at least
one image (`unit_set.filter(unitimage__isnull=False).first()`); if none,
`None`; else the first image of that unit ordered by `-is_main`, or `None`
if that unit has no images; return its URL. -/
def ProductListSerializer.get_image (obj : Product) : Option String :=
  match (obj.unit_set.filter (fun u => !u.unitimage_set.isEmpty)).head? with
  | none => none
  | some unit =>
    match (order_by_is_main_desc unit.unitimage_set).head? with
    | none => none
    | some image => some image.url

/-- Embeds `ProductListSerializer.Meta.fields`. -/
def ProductListSerializer.meta_fields : List String :=
  ["id", "title", "tags", "prices", "image"]

/-- The representation produced by `ProductListSerializer`. -/
structure ProductListRepr where
  id : Nat
  title : String
  tags : List String
  prices : Prices
  image : Option String
deriving DecidableEq, Repr

/-- The full `ProductListSerializer` output for one product. -/
def ProductListSerializer.toRepresentation (obj : Product) : ProductListRepr :=
  { id := obj.id
    title := obj.title
    tags := obj.tag_set
    prices := ProductListSerializer.get_prices obj
    image := ProductListSerializer.get_image obj }

/-- Embeds `ProductSerializer.Meta.fields`: the subclass `Meta` replaces the field
list; `prices` and `image` are absent. -/
def ProductSerializer.meta_fields : List String :=
  ["id", "title", "tags", "description", "units"]

/-- The representation produced by `ProductSerializer` (the detail view):
exactly the fields of `ProductSerializer.Meta.fields`. -/
structure ProductDetailRepr where
  id : Nat
  title : String
  tags : List String
  description : String
  units : List UnitRepr
deriving DecidableEq, Repr

/-- The full `ProductSerializer` output for one product: the `units` field
serializes `unit_set` with `UnitSerializer`. -/
def ProductSerializer.toRepresentation (obj : Product) : ProductDetailRepr :=
  { id := obj.id
    title := obj.title
    tags := obj.tag_set
    description := obj.description
    units := obj.unit_set.map UnitSerializer.toRepresentation }

/-! ## Orders (serializers.py lines 195-260) -/

/-- Modelled from the spec: an `OrderUnit` is a line item linking an `Order`
to a `Unit`, with a quantity, a status and the historical snapshot price
`unit_price` captured at order-creation time. -/
structure OrderUnit where
  unit : Unit
  quantity : Int
  status : Nat
  unit_price : Int
deriving DecidableEq, Repr

/-- Modelled from the spec: an `Order` has name, address, phone, a creation
timestamp and many `OrderUnit` line items. -/
structure Order where
  id : Nat
  created_at : String
  name : String
  address : String
  phone : String
  orderunit_set : List OrderUnit
deriving DecidableEq, Repr

/-- Modelled from the spec: `models.py` is not part of the given sources.
`Order.unit_set` is the order's relation to units through its `OrderUnit`
line items, one related row per `OrderUnit`. -/
def Order.unit_set (o : Order) : List Unit :=
  o.orderunit_set.map (fun ou => ou.unit)

/-- Embeds `OrderListSerializer.get_units_num`: `obj.unit_set.count()`. -/
def OrderListSerializer.get_units_num (obj : Order) : Nat :=
  (Order.unit_set obj).length

/-- The representation produced by `UnitForOrderDetail`
(`fields = ('title', 'properties', 'image', 'product_id', 'price', 'sku')`). -/
structure UnitForOrderDetailRepr where
  title : String
  properties : List PropRepr
  image : Option String
  product_id : Nat
  price : Int
  sku : String
deriving DecidableEq, Repr

/-- Embeds `UnitForOrderDetail.get_image`: first image ordered by `-is_main`, or
`None` when the unit has no images. -/
def UnitForOrderDetail.get_image (obj : Unit) : Option String :=
  match (order_by_is_main_desc obj.unitimage_set).head? with
  | none => none
  | some image => some image.url

/-- The full `UnitForOrderDetail` output for one unit; `price` here is the
unit's current price. -/
def UnitForOrderDetail.toRepresentation (obj : Unit) : UnitForOrderDetailRepr :=
  { title := obj.product_title
    properties := obj.value_set.map (fun property_value =>
      { name := property_value.property_name, value := property_value.value })
    image := UnitForOrderDetail.get_image obj
    product_id := obj.product_id
    price := obj.price
    sku := obj.sku }

/-- Embeds `OrderUnitSerializer.get_unit`: serialize `obj.unit` with
`UnitForOrderDetail`, then overwrite `price` with the snapshot
`obj.unit_price` taken at the moment of purchase. -/
def OrderUnitSerializer.get_unit (obj : OrderUnit) : UnitForOrderDetailRepr :=
  let data := UnitForOrderDetail.toRepresentation obj.unit
  { data with price := obj.unit_price }

/-! ## CartUnitSerializer (serializers.py lines 263-284) -/

/-- The writable input of `CartUnitSerializer`: `sku`, and `quantity` which
may be absent (`none`), in which case the declared default 1 applies. -/
structure CartUnitInput where
  sku : String
  quantity : Option Int
deriving DecidableEq, Repr

/-- Embeds `Unit.objects.get(sku=sku)` against the unit table: the first unit with
the given sku, `none` when there is no such unit (`ObjectDoesNotExist`). -/
def Unit.objects_get (units : List Unit) (sku : String) : Option Unit :=
  units.find? (fun u => u.sku == sku)

/-- Field validation of `quantity = serializers.IntegerField(default=1,
min_value=1)`: apply the default, then reject values below 1. -/
def CartUnitSerializer.validateQuantityField (q : Option Int) :
    Except String Int :=
  let quantity := q.getD 1
  if quantity < 1 then
    Except.error "Ensure this value is greater than or equal to 1."
  else
    Except.ok quantity

/-- Embeds `CartUnitSerializer.validate`: look the sku up; unknown sku and
insufficient stock each raise a `ValidationError`; otherwise the validated
data is returned unchanged. -/
def CartUnitSerializer.validate (units : List Unit) (sku : String)
    (quantity : Int) : Except String (String × Int) :=
  match Unit.objects_get units sku with
  | none => Except.error "Unit does not exist"
  | some unit =>
    if unit.num_in_stock < quantity then
      Except.error "There are not enough units in stock"
    else
      Except.ok (sku, quantity)

/-- The whole validation pipeline of `CartUnitSerializer`: field-level
validation (default and minimum of `quantity`) followed by `validate`. -/
def CartUnitSerializer.run_validation (units : List Unit)
    (input : CartUnitInput) : Except String (String × Int) :=
  match CartUnitSerializer.validateQuantityField input.quantity with
  | Except.error e => Except.error e
  | Except.ok quantity => CartUnitSerializer.validate units input.sku quantity

/-! ## SellerSerializer.get_staff_group (serializers.py lines 161-185) -/

/-- A permission group: a name and the codenames of its permissions
(a many-to-many set; adding an already-present permission is a no-op). -/
structure Group where
  name : String
  permissions : List String
deriving DecidableEq, Repr

/-- Embeds `group.permissions.add(permission)`: many-to-many add, idempotent. -/
def Group.addPermission (g : Group) (codename : String) : Group :=
  if codename ∈ g.permissions then g
  else { g with permissions := g.permissions ++ [codename] }

/-- The group table of the database. -/
structure GroupDb where
  groups : List Group
deriving DecidableEq, Repr

/-- Embeds `Group.objects.get(name=name)`: the first group with that name, `none`
when there is no such group (`ObjectDoesNotExist`). -/
def Group.objects_get (db : GroupDb) (name : String) : Option Group :=
  db.groups.find? (fun g => g.name == name)

/-- The permission codenames granted to the Staff group, in the order the
code iterates: add/change/delete on unit, product, unitimage, orderunit;
change on order; add on property and propertyvalue (dict insertion order,
`'{}_{}'.format(permission, content_type)`). -/
def staff_permission_codenames : List String :=
  ["add_unit", "change_unit", "delete_unit",
   "add_product", "change_product", "delete_product",
   "add_unitimage", "change_unitimage", "delete_unitimage",
   "add_orderunit", "change_orderunit", "delete_orderunit",
   "change_order",
   "add_property",
   "add_propertyvalue"]

/-- Embeds `SellerSerializer.get_staff_group`: return the existing group named
`"Staff"` unchanged if there is one; otherwise create it and add every
permission of the fixed set to it. Returns the group and the group table
after the call (`Group.objects.create` and `permissions.add` write
through immediately). -/
def SellerSerializer.get_staff_group (db : GroupDb) : Group × GroupDb :=
  match Group.objects_get db "Staff" with
  | some g => (g, db)
  | none =>
    let group : Group := { name := "Staff", permissions := [] }
    let group := staff_permission_codenames.foldl Group.addPermission group
    (group, { groups := db.groups ++ [group] })

/-- The effect of one successful seller creation (`SellerSerializer.create`)
on the group table: the part of `create` that touches groups is the single
`get_staff_group` call (the created user is then added to the group, which
does not change the group table). -/
def SellerSerializer.create_group_effect (db : GroupDb) : GroupDb :=
  (SellerSerializer.get_staff_group db).2

/-! ## urls.py: route table assembly -/

/-- One entry of `listdir` of the API base directory, with the result of
`isdir` on the joined path. -/
structure DirEntry where
  name : String
  isDir : Bool
deriving DecidableEq, Repr

/-- Embeds `entities`: names of the immediate subdirectories of the API base
directory, excluding `__pycache__`, in listing order. -/
def entities (listing : List DirEntry) : List String :=
  (listing.filter (fun d => d.isDir && d.name != "__pycache__")).map
    (fun d => d.name)

/-- One URL pattern: `url(regex, include(module))`. -/
structure UrlPattern where
  regex : String
  module : String
deriving DecidableEq, Repr

/-- Embeds `urlpatterns`: one root-prefixed (`r'^'`) include of
`restshop.api.<entity>.urls` per discovered entity. -/
def urlpatterns (listing : List DirEntry) : List UrlPattern :=
  (entities listing).map (fun entity =>
    { regex := "^", module := "restshop.api." ++ entity ++ ".urls" })

/-! ## Helper lemmas -/

/-- A left fold of `min` lands on the seed or on a list element. -/
theorem foldl_min_mem (x : Int) (xs : List Int) :
    xs.foldl Min.min x = x ∨ xs.foldl Min.min x ∈ xs := by
  induction xs generalizing x with
  | nil => exact Or.inl rfl
  | cons y ys ih =>
    simp only [List.foldl_cons]
    rcases ih (Min.min x y) with h | h
    · rcases min_choice x y with h2 | h2 <;> rw [h, h2]
      · exact Or.inl rfl
      · exact Or.inr (List.mem_cons_self y ys)
    · exact Or.inr (List.mem_cons_of_mem y h)

/-- A left fold of `min` is a lower bound of the seed and the list. -/
theorem foldl_min_le (x : Int) (xs : List Int) :
    xs.foldl Min.min x ≤ x ∧ ∀ y ∈ xs, xs.foldl Min.min x ≤ y := by
  induction xs generalizing x with
  | nil => exact ⟨le_refl x, by simp⟩
  | cons y ys ih =>
    have h := ih (Min.min x y)
    refine ⟨h.1.trans (min_le_left x y), ?_⟩
    intro z hz
    rcases List.mem_cons.mp hz with rfl | hz
    · exact h.1.trans (min_le_right x z)
    · exact h.2 z hz

/-- A left fold of `max` lands on the seed or on a list element. -/
theorem foldl_max_mem (x : Int) (xs : List Int) :
    xs.foldl Max.max x = x ∨ xs.foldl Max.max x ∈ xs := by
  induction xs generalizing x with
  | nil => exact Or.inl rfl
  | cons y ys ih =>
    simp only [List.foldl_cons]
    rcases ih (Max.max x y) with h | h
    · rcases max_choice x y with h2 | h2 <;> rw [h, h2]
      · exact Or.inl rfl
      · exact Or.inr (List.mem_cons_self y ys)
    · exact Or.inr (List.mem_cons_of_mem y h)

/-- A left fold of `max` is an upper bound of the seed and the list. -/
theorem foldl_max_ge (x : Int) (xs : List Int) :
    x ≤ xs.foldl Max.max x ∧ ∀ y ∈ xs, y ≤ xs.foldl Max.max x := by
  induction xs generalizing x with
  | nil => exact ⟨le_refl x, by simp⟩
  | cons y ys ih =>
    have h := ih (Max.max x y)
    refine ⟨(le_max_left x y).trans h.1, ?_⟩
    intro z hz
    rcases List.mem_cons.mp hz with rfl | hz
    · exact (le_max_right x z).trans h.1
    · exact h.2 z hz

/-- A `find?` call skips a prefix on which it fails. -/
theorem find?_append_of_none {α : Type} (p : α → Bool) {l1 l2 : List α}
    (h : l1.find? p = none) : (l1 ++ l2).find? p = l2.find? p := by
  induction l1 with
  | nil => rfl
  | cons x xs ih =>
    rw [List.cons_append]
    rcases hx : p x with _ | _
    · rw [List.find?_cons_of_neg _ (by simp [hx])]
      rw [List.find?_cons_of_neg _ (by simp [hx])] at h
      exact ih h
    · rw [List.find?_cons_of_pos _ hx] at h
      exact absurd h (by simp)

/-! ## Claim theorems -/

/-- C8: for every `Unit` with zero associated images, `get_images` returns
the empty list, never `None`; for a `Unit` with images, it returns the list
of those images' URLs. -/
theorem unit_images_never_null (u : Unit) :
    UnitSerializer.get_images u ≠ none
    ∧ (u.unitimage_set = [] → UnitSerializer.get_images u = some [])
    ∧ UnitSerializer.get_images u
        = some (u.unitimage_set.map (fun i => i.url)) := by
  unfold UnitSerializer.get_images
  rcases h : u.unitimage_set with _ | ⟨i, is⟩ <;> simp [h]

/-- C8 witness: a concrete unit with no images. -/
def unitC8 : Unit :=
  { sku := "S", price := 1, num_in_stock := 0, value_set := [],
    unitimage_set := [], product_id := 0, product_title := "T" }

/-- C8 witness: the empty-image unit serializes with `images = some []`. -/
theorem unit_images_never_null_witness :
    UnitSerializer.get_images unitC8 = some [] :=
  (unit_images_never_null unitC8).2.1 (by decide)

/-- C1 counterexample: `prices` and `image` are list-view fields but are
absent from the detail-view field list, so the detail view does not contain
all list-view fields. -/
theorem product_detail_fields_counterexample :
    "prices" ∈ ProductListSerializer.meta_fields
    ∧ "prices" ∉ ProductSerializer.meta_fields
    ∧ "image" ∈ ProductListSerializer.meta_fields
    ∧ "image" ∉ ProductSerializer.meta_fields := by
  decide

/-- C1 (amended): the detail view carries the list-view fields `id`,
`title` and `tags` (with the same values as the list view) plus
`description` and the full nested unit list serialized by `UnitSerializer`;
the list-view fields `prices` and `image` are not part of the detail view. -/
theorem product_detail_fields (p : Product) :
    (ProductSerializer.toRepresentation p).id
        = (ProductListSerializer.toRepresentation p).id
    ∧ (ProductSerializer.toRepresentation p).title
        = (ProductListSerializer.toRepresentation p).title
    ∧ (ProductSerializer.toRepresentation p).tags
        = (ProductListSerializer.toRepresentation p).tags
    ∧ (ProductSerializer.toRepresentation p).description = p.description
    ∧ (ProductSerializer.toRepresentation p).units
        = p.unit_set.map UnitSerializer.toRepresentation
    ∧ "prices" ∉ ProductSerializer.meta_fields
    ∧ "image" ∉ ProductSerializer.meta_fields :=
  ⟨rfl, rfl, rfl, rfl, rfl, by decide, by decide⟩

/-- C3: the list-view `units_num` of an order equals the number of its
`OrderUnit` line items. -/
theorem order_units_num_counts_orderunits (o : Order) :
    OrderListSerializer.get_units_num o = o.orderunit_set.length := by
  unfold OrderListSerializer.get_units_num Order.unit_set
  exact List.length_map _ _

/-- C6: the order detail-view unit entry reports the stored snapshot
`unit_price`, and changing the referenced unit's current price afterwards
does not change the reported price. -/
theorem orderunit_price_is_snapshot (ou : OrderUnit) (newPrice : Int) :
    (OrderUnitSerializer.get_unit ou).price = ou.unit_price
    ∧ (OrderUnitSerializer.get_unit
        { ou with unit := { ou.unit with price := newPrice } }).price
        = ou.unit_price :=
  ⟨rfl, rfl⟩

/-- C2 sample: the first unit carries only a non-main image. -/
def unitC2a : Unit :=
  { sku := "U1", price := 5, num_in_stock := 1, value_set := [],
    unitimage_set := [{ url := "u1-first.jpg", is_main := false }],
    product_id := 1, product_title := "P" }

/-- C2 sample: the second unit carries the only main-flagged image. -/
def unitC2b : Unit :=
  { sku := "U2", price := 6, num_in_stock := 1, value_set := [],
    unitimage_set := [{ url := "u2-main.jpg", is_main := true }],
    product_id := 1, product_title := "P" }

/-- C2 sample product with both units. -/
def productC2 : Product :=
  { id := 1, title := "P", description := "D", tag_set := [],
    unit_set := [unitC2a, unitC2b] }

/-- C2 counterexample: a main-flagged image exists among the product's
units' images, yet its URL is not the one returned: the non-main image of
the first image-bearing unit wins. -/
theorem product_image_counterexample :
    ProductListSerializer.get_image productC2 = some "u1-first.jpg"
    ∧ (∃ u ∈ productC2.unit_set, ∃ img ∈ u.unitimage_set, img.is_main = true)
    ∧ ∀ u ∈ productC2.unit_set, ∀ img ∈ u.unitimage_set,
        img.is_main = true →
        ProductListSerializer.get_image productC2 ≠ some img.url := by
  decide

/-- C2 (amended): the list-view image is drawn from the first unit that has
any images: among that unit's images the first main-flagged one wins
(independently of the non-main images), else that unit's first image; the
field is null when no unit has an image, in particular when there are no
units at all. -/
theorem product_image_from_first_image_unit (p : Product) :
    ((∀ u ∈ p.unit_set, u.unitimage_set = []) →
        ProductListSerializer.get_image p = none)
    ∧ (∀ u, (p.unit_set.filter (fun v => !v.unitimage_set.isEmpty)).head?
          = some u →
        (∀ m rest, u.unitimage_set.filter (fun i => i.is_main) = m :: rest →
            ProductListSerializer.get_image p = some m.url)
        ∧ (u.unitimage_set.filter (fun i => i.is_main) = [] →
            ProductListSerializer.get_image p
              = u.unitimage_set.head?.map (fun i => i.url))) := by
  constructor
  · intro h
    unfold ProductListSerializer.get_image
    have hnil : p.unit_set.filter (fun v => !v.unitimage_set.isEmpty) = [] := by
      rw [List.filter_eq_nil_iff]
      intro a ha
      simp [h a ha]
    rw [hnil]
    rfl
  · intro u hu
    unfold ProductListSerializer.get_image
    rw [hu]
    unfold order_by_is_main_desc
    dsimp only
    constructor
    · intro m rest hm
      rw [hm]
      rfl
    · intro hm
      rw [hm, List.nil_append]
      have hall : u.unitimage_set.filter (fun i => !i.is_main)
          = u.unitimage_set := by
        rw [List.filter_eq_self]
        intro a ha
        have := List.filter_eq_nil_iff.mp hm a ha
        simpa using this
      rw [hall]
      cases u.unitimage_set.head? <;> rfl

/-- C2 witness: on the sample product the image comes from the first
image-bearing unit's images. -/
theorem product_image_from_first_image_unit_witness :
    ProductListSerializer.get_image productC2 = some "u1-first.jpg" := by
  have h := ((product_image_from_first_image_unit productC2).2 unitC2a
    (by decide)).2 (by decide)
  simpa using h

/-- C4: for a product with at least one unit, `get_prices` yields the true
minimum and maximum of the units' prices; for a single unit they agree. -/
theorem product_prices_min_max (p : Product) (h : p.unit_set ≠ []) :
    (∃ m, (ProductListSerializer.get_prices p).min = some m
        ∧ m ∈ p.unit_set.map (fun u => u.price)
        ∧ ∀ x ∈ p.unit_set.map (fun u => u.price), m ≤ x)
    ∧ (∃ M, (ProductListSerializer.get_prices p).max = some M
        ∧ M ∈ p.unit_set.map (fun u => u.price)
        ∧ ∀ x ∈ p.unit_set.map (fun u => u.price), x ≤ M)
    ∧ (∀ u, p.unit_set = [u] →
        (ProductListSerializer.get_prices p).min
          = (ProductListSerializer.get_prices p).max) := by
  refine ⟨?_, ?_, ?_⟩
  · rcases hp : p.unit_set.map (fun u => u.price) with _ | ⟨x, xs⟩
    · exact absurd (List.map_eq_nil_iff.mp hp) h
    · refine ⟨xs.foldl Min.min x, ?_, ?_, ?_⟩
      · unfold ProductListSerializer.get_prices
        rw [hp]
        rfl
      · rw [hp]
        rcases foldl_min_mem x xs with h2 | h2
        · rw [h2]; exact List.mem_cons_self x xs
        · exact List.mem_cons_of_mem x h2
      · rw [hp]
        intro y hy
        rcases List.mem_cons.mp hy with rfl | hy
        · exact (foldl_min_le y xs).1
        · exact (foldl_min_le x xs).2 y hy
  · rcases hp : p.unit_set.map (fun u => u.price) with _ | ⟨x, xs⟩
    · exact absurd (List.map_eq_nil_iff.mp hp) h
    · refine ⟨xs.foldl Max.max x, ?_, ?_, ?_⟩
      · unfold ProductListSerializer.get_prices
        rw [hp]
        rfl
      · rw [hp]
        rcases foldl_max_mem x xs with h2 | h2
        · rw [h2]; exact List.mem_cons_self x xs
        · exact List.mem_cons_of_mem x h2
      · rw [hp]
        intro y hy
        rcases List.mem_cons.mp hy with rfl | hy
        · exact (foldl_max_ge y xs).1
        · exact (foldl_max_ge x xs).2 y hy
  · intro u hu
    unfold ProductListSerializer.get_prices
    rw [hu]
    rfl

/-- C4 witness: a unit priced 7. -/
def unitC4 : Unit :=
  { sku := "C4", price := 7, num_in_stock := 1, value_set := [],
    unitimage_set := [], product_id := 2, product_title := "Q" }

/-- C4 witness: a product with that single unit. -/
def productC4 : Product :=
  { id := 2, title := "Q", description := "", tag_set := [],
    unit_set := [unitC4] }

/-- C4 witness: the single-unit product has equal min and max price. -/
theorem product_prices_min_max_witness :
    (ProductListSerializer.get_prices productC4).min
      = (ProductListSerializer.get_prices productC4).max :=
  (product_prices_min_max productC4 (by decide)).2.2 unitC4 (by decide)

/-- C5: with the defaulted quantity at least 1, cart validation fails with
`Unit does not exist` exactly on an unknown sku; with a resolved unit it
fails with `There are not enough units in stock` when the quantity exceeds
the stock, and otherwise succeeds with the (possibly defaulted) quantity. -/
theorem cart_validation (units : List Unit) (input : CartUnitInput)
    (hq : 1 ≤ input.quantity.getD 1) :
    ((¬ ∃ u ∈ units, u.sku = input.sku) →
        CartUnitSerializer.run_validation units input
          = Except.error "Unit does not exist")
    ∧ (∀ u, Unit.objects_get units input.sku = some u →
        (u.num_in_stock < input.quantity.getD 1 →
          CartUnitSerializer.run_validation units input
            = Except.error "There are not enough units in stock")
        ∧ (input.quantity.getD 1 ≤ u.num_in_stock →
          CartUnitSerializer.run_validation units input
            = Except.ok (input.sku, input.quantity.getD 1))) := by
  have hfield : CartUnitSerializer.validateQuantityField input.quantity
      = Except.ok (input.quantity.getD 1) := by
    unfold CartUnitSerializer.validateQuantityField
    rw [if_neg (not_lt.mpr hq)]
  constructor
  · intro hno
    have hfind : Unit.objects_get units input.sku = none := by
      unfold Unit.objects_get
      rw [List.find?_eq_none]
      intro u hu
      simp only [beq_iff_eq]
      exact fun he => hno ⟨u, hu, he⟩
    unfold CartUnitSerializer.run_validation
    rw [hfield]
    unfold CartUnitSerializer.validate
    rw [hfind]
  · intro u hu
    unfold CartUnitSerializer.run_validation
    rw [hfield]
    unfold CartUnitSerializer.validate
    rw [hu]
    dsimp only
    constructor
    · intro hlt
      rw [if_pos hlt]
    · intro hle
      rw [if_neg (not_lt.mpr hle)]

/-- C5 witness: a unit with stock 3. -/
def unitC5 : Unit :=
  { sku := "ABC", price := 10, num_in_stock := 3, value_set := [],
    unitimage_set := [], product_id := 1, product_title := "T" }

/-- C5 witness: requesting 5 of a 3-in-stock unit is rejected with the
stock message. -/
theorem cart_validation_witness :
    CartUnitSerializer.run_validation [unitC5]
      { sku := "ABC", quantity := some 5 }
      = Except.error "There are not enough units in stock" :=
  ((cart_validation [unitC5] { sku := "ABC", quantity := some 5 }
      (by decide)).2 unitC5 (by decide)).1 (by decide)

/-- C10: when a group named `Staff` already exists, `get_staff_group`
returns it unchanged and leaves the group table untouched: no permissions
are added. -/
theorem staff_group_existing_unchanged (db : GroupDb) (g : Group)
    (h : Group.objects_get db "Staff" = some g) :
    SellerSerializer.get_staff_group db = (g, db) := by
  unfold SellerSerializer.get_staff_group
  rw [h]

/-- C10 witness: a pre-existing empty `Staff` group is returned as is. -/
theorem staff_group_existing_unchanged_witness :
    SellerSerializer.get_staff_group
      { groups := [{ name := "Staff", permissions := [] }] }
      = ({ name := "Staff", permissions := [] },
         { groups := [{ name := "Staff", permissions := [] }] }) :=
  staff_group_existing_unchanged _ _ (by decide)

/-- C7: starting from a table with no `Staff` group, two sequential seller
creations leave exactly one group named `Staff`, and it carries exactly the
fixed permission set. -/
theorem staff_group_idempotent (db : GroupDb)
    (h : Group.objects_get db "Staff" = none) :
    ((SellerSerializer.create_group_effect
        (SellerSerializer.create_group_effect db)).groups.filter
          (fun g => g.name == "Staff")).length = 1
    ∧ ∀ g ∈ (SellerSerializer.create_group_effect
        (SellerSerializer.create_group_effect db)).groups,
        g.name = "Staff" → g.permissions = staff_permission_codenames := by
  have hnone := List.find?_eq_none.mp h
  have hname : (staff_permission_codenames.foldl Group.addPermission
      { name := "Staff", permissions := [] }).name = "Staff" := by decide
  have hperm : (staff_permission_codenames.foldl Group.addPermission
      { name := "Staff", permissions := [] }).permissions
      = staff_permission_codenames := by decide
  have hd1 : SellerSerializer.create_group_effect db
      = { groups := db.groups ++ [staff_permission_codenames.foldl
            Group.addPermission { name := "Staff", permissions := [] }] } := by
    unfold SellerSerializer.create_group_effect
      SellerSerializer.get_staff_group
    rw [h]
  have hd2 : SellerSerializer.create_group_effect
      (SellerSerializer.create_group_effect db)
      = SellerSerializer.create_group_effect db := by
    rw [hd1]
    unfold SellerSerializer.create_group_effect
      SellerSerializer.get_staff_group
    have hsome : Group.objects_get { groups := db.groups
        ++ [staff_permission_codenames.foldl Group.addPermission
              { name := "Staff", permissions := [] }] } "Staff"
        = some (staff_permission_codenames.foldl Group.addPermission
              { name := "Staff", permissions := [] }) := by
      unfold Group.objects_get at h ⊢
      rw [find?_append_of_none _ h]
      simp [List.find?_cons, hname]
    rw [hsome]
  have hfilter : db.groups.filter (fun g => g.name == "Staff") = [] :=
    List.filter_eq_nil_iff.mpr hnone
  rw [hd2, hd1]
  constructor
  · simp [List.filter_append, hfilter, hname]
  · intro g hg hgname
    rcases List.mem_append.mp hg with hg | hg
    · exact absurd (by simp [hgname]) (hnone g hg)
    · rw [List.mem_singleton.mp hg]
      exact hperm

/-- C7 witness: from the empty group table, two creations leave one fully
permissioned `Staff` group. -/
theorem staff_group_idempotent_witness :
    ((SellerSerializer.create_group_effect
        (SellerSerializer.create_group_effect { groups := [] })).groups.filter
          (fun g => g.name == "Staff")).length = 1
    ∧ ∀ g ∈ (SellerSerializer.create_group_effect
        (SellerSerializer.create_group_effect { groups := [] })).groups,
        g.name = "Staff" → g.permissions = staff_permission_codenames :=
  staff_group_idempotent { groups := [] } (by decide)

/-- C9: the route table has exactly one root-prefixed include of each
immediate subdirectory's route module, skipping `__pycache__`; every
pattern stems from such a subdirectory, and non-directories produce none. -/
theorem urlpatterns_route_table (listing : List DirEntry) :
    (∀ d ∈ listing, d.isDir = true → d.name ≠ "__pycache__" →
        ({ regex := "^", module := "restshop.api." ++ d.name ++ ".urls" }
          : UrlPattern) ∈ urlpatterns listing)
    ∧ (∀ pat ∈ urlpatterns listing, pat.regex = "^"
        ∧ ∃ d ∈ listing, d.isDir = true ∧ d.name ≠ "__pycache__"
            ∧ pat.module = "restshop.api." ++ d.name ++ ".urls")
    ∧ (urlpatterns listing).length
        = (listing.filter (fun d => d.isDir && d.name != "__pycache__")).length := by
  unfold urlpatterns entities
  refine ⟨?_, ?_, ?_⟩
  · intro d hd hdir hnm
    rw [List.mem_map]
    refine ⟨d.name, ?_, rfl⟩
    rw [List.mem_map]
    refine ⟨d, ?_, rfl⟩
    rw [List.mem_filter]
    exact ⟨hd, by simp [hdir, hnm]⟩
  · intro pat hpat
    rw [List.mem_map] at hpat
    rcases hpat with ⟨nm, hnm, rfl⟩
    rw [List.mem_map] at hnm
    rcases hnm with ⟨d, hd, rfl⟩
    rw [List.mem_filter] at hd
    have hcond := hd.2
    simp only [Bool.and_eq_true, bne_iff_ne] at hcond
    exact ⟨rfl, d, hd.1, hcond.1, hcond.2, rfl⟩
  · rw [List.length_map, List.length_map]

/-- C9 witness: a listing with a real sub-application directory, the cache
directory and a plain file yields exactly the one include for the former. -/
theorem urlpatterns_route_table_witness :
    ({ regex := "^", module := "restshop.api.cart.urls" } : UrlPattern)
      ∈ urlpatterns [{ name := "cart", isDir := true },
                     { name := "__pycache__", isDir := true },
                     { name := "manage.py", isDir := false }] :=
  (urlpatterns_route_table _).1 { name := "cart", isDir := true }
    (by decide) (by decide) (by decide)

end RestShop
